import Mathlib

/-!
A shallow embedding of the predefined installed source factory
(PredefinedInstalledSourceFactory.cpp) of winget-cli, together with proofs
about its cache lifecycle, reconciliation and population logic.

The SQLite-backed index is modelled as a list of (rowid, record) pairs plus
a next-rowid counter.  The registry (ARP) scanner and the MSIX update scan
are not part of the given sources; they are modelled from the spec where
noted.  Fallible operations return Except, and the lifecycle stages of
Factory::Create record an event trace so that ordering properties can be
stated.
-/

namespace PredefinedInstalledSource

/-- Registry scope of a legacy (ARP) entry; MSIX records carry no scope. -/
inductive ScopeEnum where
  | machine
  | user
deriving DecidableEq, Repr

/-- One record of the index: identity, display name, version, scope and the
InstalledType metadata tag. -/
structure IndexRecord where
  identity : String
  name : String
  version : String
  scope : Option ScopeEnum
  installedType : String
deriving DecidableEq, Repr

/-- The SQLite index: rows keyed by rowid, plus the next fresh rowid. -/
structure SQLiteIndex where
  rows : List (Nat × IndexRecord)
  nextId : Nat
deriving DecidableEq, Repr

/-- SQLiteIndex::CreateNew - a fresh, empty index. -/
def SQLiteIndex.createNew (start : Nat) : SQLiteIndex :=
  { rows := [], nextId := start }

/-- SQLiteIndex::AddManifest - insert a record under a fresh rowid and
return that rowid. -/
def SQLiteIndex.addManifest (idx : SQLiteIndex) (r : IndexRecord) : Nat × SQLiteIndex :=
  (idx.nextId, { rows := idx.rows ++ [(idx.nextId, r)], nextId := idx.nextId + 1 })

/-- SQLiteIndex::Search with an empty request - all rowids in the index. -/
def SQLiteIndex.search (idx : SQLiteIndex) : List Nat :=
  idx.rows.map Prod.fst

/-- SQLiteIndex::RemoveManifestsById - drop every row with the given rowid. -/
def SQLiteIndex.removeManifestsById (idx : SQLiteIndex) (id : Nat) : SQLiteIndex :=
  { rows := idx.rows.filter (fun q => q.fst != id), nextId := idx.nextId }

/-- SQLiteIndex::SetMetadataByManifestId for the InstalledType key. -/
def SQLiteIndex.setMetadataByManifestId (idx : SQLiteIndex) (id : Nat) (v : String) :
    SQLiteIndex :=
  { rows := idx.rows.map (fun q =>
      if q.fst = id then (q.fst, { q.snd with installedType := v }) else q),
    nextId := idx.nextId }

/-- Replace the record stored under an existing rowid. -/
def SQLiteIndex.updateManifestById (idx : SQLiteIndex) (id : Nat) (r : IndexRecord) :
    SQLiteIndex :=
  { rows := idx.rows.map (fun q => if q.fst = id then (q.fst, r) else q),
    nextId := idx.nextId }

/-- Well-formedness: every rowid stored in the index is below the fresh counter. -/
def WF (idx : SQLiteIndex) : Prop :=
  ∀ id ∈ idx.search, id < idx.nextId

/-- The mutable Manifest object of PopulateIndexFromMSIX, restricted to the
fields that pass writes (the tag list and the single installer are fixed). -/
structure Manifest where
  id : String
  name : String
  version : String
deriving DecidableEq, Repr

/-- A package version quad (major.minor.build.revision). -/
structure PackageVersion where
  major : Nat
  minor : Nat
  build : Nat
  revision : Nat
deriving DecidableEq, Repr

/-- One package yielded by the platform package enumerator.  `displayName`
is `none` when retrieving the localized display name throws. -/
structure MsixPackage where
  isSystem : Bool
  familyName : String
  rawName : String
  displayName : Option String
  version : PackageVersion
deriving DecidableEq, Repr

/-- The four dot-separated components written by the ostringstream. -/
def msixVersionString (v : PackageVersion) : String :=
  toString v.major ++ "." ++ toString v.minor ++ "." ++ toString v.build
    ++ "." ++ toString v.revision

/-- The loop body of PopulateIndexFromMSIX.  The manifest object is shared
across iterations: when retrieving the display name throws, `manifest.Name`
keeps whatever value the previous iteration left there, and the raw-name
fallback fires only if that carried-over value is empty. -/
def populateMSIXStep (st : SQLiteIndex × Manifest) (p : MsixPackage) :
    SQLiteIndex × Manifest :=
  if p.isSystem then st
  else
    let m1 := { st.snd with id := p.familyName }
    let m2 :=
      match p.displayName with
      | some s => { m1 with name := s }
      | none => m1
    let m3 := if m2.name = "" then { m2 with name := p.rawName } else m2
    let m4 := { m3 with version := msixVersionString p.version }
    let r : IndexRecord :=
      { identity := m4.id, name := m4.name, version := m4.version,
        scope := none, installedType := "" }
    let added := st.fst.addManifest r
    (added.snd.setMetadataByManifestId added.fst "msix", m4)

/-- PopulateIndexFromMSIX: fold the loop body over the enumerated packages,
starting from a freshly constructed (empty-field) Manifest. -/
def PopulateIndexFromMSIX (packages : List MsixPackage) (idx : SQLiteIndex) :
    SQLiteIndex :=
  (packages.foldl populateMSIXStep (idx, { id := "", name := "", version := "" })).fst

/-- One entry of the registry (ARP) inventory for one scope. -/
structure ARPEntry where
  identity : String
  name : String
  version : String
deriving DecidableEq, Repr

/-- The index record an ARP entry is stored as. -/
def arpRecordOf (e : ARPEntry) (sc : ScopeEnum) : IndexRecord :=
  { identity := e.identity, name := e.name, version := e.version,
    scope := some sc, installedType := "legacy" }

/-- Modelled from the spec: ARPHelper::PopulateIndexFromARP is not under the
given sources; per the spec it enumerates every entry of the scope and
inserts it with identity, name, version, scope and a legacy-install tag. -/
def PopulateIndexFromARP (entries : List ARPEntry) (sc : ScopeEnum)
    (idx : SQLiteIndex) : SQLiteIndex :=
  entries.foldl (fun i e => (i.addManifest (arpRecordOf e sc)).snd) idx

/-- Find the rowid of an existing record with this identity and scope. -/
def findByIdentity (idx : SQLiteIndex) (ident : String) (sc : Option ScopeEnum) :
    Option Nat :=
  (idx.rows.find? (fun q =>
    decide (q.snd.identity = ident ∧ q.snd.scope = sc))).map Prod.fst

/-- Modelled from the spec: one step of ARPHelper::UpdateIndexFromARP - a
re-encountered identity re-uses and updates its existing rowid and removes
that rowid from the live set; a new identity is inserted. -/
def updateARPStep (sc : ScopeEnum) (st : SQLiteIndex × List Nat) (e : ARPEntry) :
    SQLiteIndex × List Nat :=
  match findByIdentity st.fst e.identity (some sc) with
  | some id => (st.fst.updateManifestById id (arpRecordOf e sc), st.snd.erase id)
  | none => ((st.fst.addManifest (arpRecordOf e sc)).snd, st.snd)

/-- Modelled from the spec: ARPHelper::UpdateIndexFromARP is not under the
given sources; it re-scans one scope, updating/inserting records and
removing every re-encountered rowid from the live set. -/
def UpdateIndexFromARP (entries : List ARPEntry) (sc : ScopeEnum)
    (idx : SQLiteIndex) (ids : List Nat) : SQLiteIndex × List Nat :=
  entries.foldl (updateARPStep sc) (idx, ids)

/-- The index record the MSIX update scan resolves for a package, per the
spec: attempt the localized name, on failure fall back to the raw name. -/
def msixUpdateRecordOf (p : MsixPackage) : IndexRecord :=
  { identity := p.familyName,
    name := match p.displayName with
      | some s => s
      | none => p.rawName,
    version := msixVersionString p.version,
    scope := none, installedType := "msix" }

/-- Modelled from the spec: one step of UpdateIndexFromMSIX (called by
UpdateIndex but not under the given sources) - skip system packages; a
re-encountered family identity re-uses and updates its existing rowid and
removes that rowid from the live set; a new identity is inserted. -/
def updateMSIXStep (st : SQLiteIndex × List Nat) (p : MsixPackage) :
    SQLiteIndex × List Nat :=
  if p.isSystem then st
  else
    match findByIdentity st.fst p.familyName none with
    | some id => (st.fst.updateManifestById id (msixUpdateRecordOf p), st.snd.erase id)
    | none => ((st.fst.addManifest (msixUpdateRecordOf p)).snd, st.snd)

/-- Modelled from the spec: UpdateIndexFromMSIX re-scans the platform
package inventory, removing every re-encountered rowid from the live set. -/
def UpdateIndexFromMSIX (packages : List MsixPackage) (idx : SQLiteIndex)
    (ids : List Nat) : SQLiteIndex × List Nat :=
  packages.foldl updateMSIXStep (idx, ids)

/-- The live system state an update or populate pass observes: the ARP
entries of both scopes and the platform package enumeration. -/
structure LiveState where
  arpMachine : List ARPEntry
  arpUser : List ARPEntry
  msix : List MsixPackage
deriving DecidableEq, Repr

/-- PopulateIndex: both ARP scopes (Machine then User), then MSIX. -/
def PopulateIndex (live : LiveState) (idx : SQLiteIndex) : SQLiteIndex :=
  PopulateIndexFromMSIX live.msix
    (PopulateIndexFromARP live.arpUser ScopeEnum.user
      (PopulateIndexFromARP live.arpMachine ScopeEnum.machine idx))

/-- The scan phase of UpdateIndex: capture all rowids with an unfiltered
search, then run the Machine-scope scan, the User-scope scan and the MSIX
scan, each shrinking the captured set. -/
def updateScanPhase (live : LiveState) (idx : SQLiteIndex) :
    SQLiteIndex × List Nat :=
  let idsSet := idx.search
  let r1 := UpdateIndexFromARP live.arpMachine ScopeEnum.machine idx idsSet
  let r2 := UpdateIndexFromARP live.arpUser ScopeEnum.user r1.fst r1.snd
  UpdateIndexFromMSIX live.msix r2.fst r2.snd

/-- Events of one run of UpdateIndex. -/
inductive UEvent where
  | scanARP (sc : ScopeEnum)
  | scanMSIX
  | removeId (id : Nat)
deriving DecidableEq, Repr

/-- UpdateIndex with its event trace: the three scans in order, then the
removal of every rowid still left in the captured set. -/
def UpdateIndexTrace (live : LiveState) (idx : SQLiteIndex) :
    SQLiteIndex × List UEvent :=
  let r := updateScanPhase live idx
  (r.snd.foldl SQLiteIndex.removeManifestsById r.fst,
   [UEvent.scanARP ScopeEnum.machine, UEvent.scanARP ScopeEnum.user, UEvent.scanMSIX]
     ++ r.snd.map UEvent.removeId)

/-- UpdateIndex - the reconciliation update pass. -/
def UpdateIndex (live : LiveState) (idx : SQLiteIndex) : SQLiteIndex :=
  (UpdateIndexTrace live idx).fst

/-- ShouldRecreateCache, verbatim from the source: the freshness check is an
unimplemented placeholder that accepts every index. -/
def ShouldRecreateCache (_ : SQLiteIndex) : Bool :=
  false

/-- PredefinedInstalledSourceFactory::Type(). -/
def factoryType : String :=
  "Microsoft.Predefined.Installed"

/-- The c_sourceName constant of the factory. -/
def c_sourceName : String :=
  "*PredefinedInstalledSource"

/-- Error conditions the modelled operations can raise. -/
inductive HResult where
  | E_INVALIDARG
  | E_NOTIMPL
  | E_FAIL
  | lockFailure
  | openFailure
  | fsFailure
  | enumFailure
  | resourceFailure
deriving DecidableEq, Repr

/-- The source object returned by Factory::Create: the index it owns,
whether it carries the shared structural (file) lock, and the installed
flag always passed as true. -/
structure SourceResult where
  name : String
  index : SQLiteIndex
  hasFileLock : Bool
  isInstalled : Bool
deriving DecidableEq, Repr

/-- Events of one run of Factory::Create. -/
inductive CEvent where
  | lockSharedFile
  | openIndexReadWrite
  | checkRecreate (recreate : Bool)
  | tryAcquireContents (acquired : Bool)
  | runUpdateIndex
  | releaseContents
  | waitContentsShared
  | lockExclusiveFile
  | removeAllCacheDir
  | createDirectories
  | createNewIndex
  | runPopulateIndex
  | releaseExclusiveFile
  | openIndexRead
  | createInMemoryIndex
deriving DecidableEq, Repr

/-- The environment one run of Factory::Create executes against: the live
system state, the contents of the existing cache file (meaningful when it
opens), the outcome of the zero-timeout contents-lock try-acquire, and one
flag per fallible external operation saying whether it throws. -/
structure Env where
  live : LiveState
  cacheIndex : SQLiteIndex
  s1LockOk : Bool
  s1OpenOk : Bool
  contentsAcquired : Bool
  s1UpdateOk : Bool
  s1WaitOk : Bool
  s2LockOk : Bool
  s2RemoveOk : Bool
  s2MkdirOk : Bool
  s2CreateOk : Bool
  s2PopulateOk : Bool
  s2RelockOk : Bool
  s2ReopenOk : Bool
  s3CreateOk : Bool
  s3PopulateOk : Bool
deriving DecidableEq, Repr

/-- The reuse-existing-cache stage of Create (the first try block): shared
file lock, open read-write, freshness check; when the cache is accepted,
elect an updater with a zero-timeout exclusive try-acquire of the contents
lock - the winner runs UpdateIndex and releases, the loser blocks on the
contents lock purely to wait - and return a source that carries the shared
file lock.  `Except.ok none` means the stage fell through because the
freshness check rejected the cache. -/
def stage1 (env : Env) : Except HResult (Option SourceResult) × List CEvent :=
  if env.s1LockOk = false then (Except.error HResult.lockFailure, [])
  else if env.s1OpenOk = false then
    (Except.error HResult.openFailure, [CEvent.lockSharedFile])
  else if ShouldRecreateCache env.cacheIndex then
    (Except.ok none,
     [CEvent.lockSharedFile, CEvent.openIndexReadWrite, CEvent.checkRecreate true])
  else if env.contentsAcquired then
    if env.s1UpdateOk = false then
      (Except.error HResult.enumFailure,
       [CEvent.lockSharedFile, CEvent.openIndexReadWrite, CEvent.checkRecreate false,
        CEvent.tryAcquireContents true])
    else
      (Except.ok (some { name := c_sourceName,
                         index := UpdateIndex env.live env.cacheIndex,
                         hasFileLock := true, isInstalled := true }),
       [CEvent.lockSharedFile, CEvent.openIndexReadWrite, CEvent.checkRecreate false,
        CEvent.tryAcquireContents true, CEvent.runUpdateIndex, CEvent.releaseContents])
  else
    if env.s1WaitOk = false then
      (Except.error HResult.lockFailure,
       [CEvent.lockSharedFile, CEvent.openIndexReadWrite, CEvent.checkRecreate false,
        CEvent.tryAcquireContents false])
    else
      (Except.ok (some { name := c_sourceName, index := env.cacheIndex,
                         hasFileLock := true, isInstalled := true }),
       [CEvent.lockSharedFile, CEvent.openIndexReadWrite, CEvent.checkRecreate false,
        CEvent.tryAcquireContents false, CEvent.waitContentsShared])

/-- The recreate stage of Create (the second try block): exclusive file
lock; remove the cache directory; recreate it; create a new index file; run
the full population pass; release the exclusive lock at scope exit; then
re-acquire the file lock shared and reopen the index read-only. -/
def stage2 (env : Env) : Except HResult SourceResult × List CEvent :=
  if env.s2LockOk = false then (Except.error HResult.lockFailure, [])
  else if env.s2RemoveOk = false then
    (Except.error HResult.fsFailure, [CEvent.lockExclusiveFile])
  else if env.s2MkdirOk = false then
    (Except.error HResult.fsFailure, [CEvent.lockExclusiveFile, CEvent.removeAllCacheDir])
  else if env.s2CreateOk = false then
    (Except.error HResult.openFailure,
     [CEvent.lockExclusiveFile, CEvent.removeAllCacheDir, CEvent.createDirectories])
  else if env.s2PopulateOk = false then
    (Except.error HResult.enumFailure,
     [CEvent.lockExclusiveFile, CEvent.removeAllCacheDir, CEvent.createDirectories,
      CEvent.createNewIndex])
  else if env.s2RelockOk = false then
    (Except.error HResult.lockFailure,
     [CEvent.lockExclusiveFile, CEvent.removeAllCacheDir, CEvent.createDirectories,
      CEvent.createNewIndex, CEvent.runPopulateIndex, CEvent.releaseExclusiveFile])
  else if env.s2ReopenOk = false then
    (Except.error HResult.openFailure,
     [CEvent.lockExclusiveFile, CEvent.removeAllCacheDir, CEvent.createDirectories,
      CEvent.createNewIndex, CEvent.runPopulateIndex, CEvent.releaseExclusiveFile,
      CEvent.lockSharedFile])
  else
    (Except.ok { name := c_sourceName,
                 index := PopulateIndex env.live (SQLiteIndex.createNew 1),
                 hasFileLock := true, isInstalled := true },
     [CEvent.lockExclusiveFile, CEvent.removeAllCacheDir, CEvent.createDirectories,
      CEvent.createNewIndex, CEvent.runPopulateIndex, CEvent.releaseExclusiveFile,
      CEvent.lockSharedFile, CEvent.openIndexRead])

/-- The last-resort stage of Create: build an in-memory index, run the full
population pass against it, and return it with no lock attached.  Its own
failure is the only one Create propagates past the type check. -/
def stage3 (env : Env) : Except HResult SourceResult × List CEvent :=
  if env.s3CreateOk = false then (Except.error HResult.resourceFailure, [])
  else if env.s3PopulateOk = false then
    (Except.error HResult.enumFailure, [CEvent.createInMemoryIndex])
  else
    (Except.ok { name := c_sourceName,
                 index := PopulateIndex env.live (SQLiteIndex.createNew 1),
                 hasFileLock := false, isInstalled := true },
     [CEvent.createInMemoryIndex, CEvent.runPopulateIndex])

/-- What Create does after the first try block did not return a source:
attempt the recreate stage, and on its failure the in-memory stage. -/
def createFallback (env : Env) (evs : List CEvent) :
    Except HResult SourceResult × List CEvent :=
  match stage2 env with
  | (Except.ok s, evs2) => (Except.ok s, evs ++ evs2)
  | (Except.error _, evs2) =>
    match stage3 env with
    | (r3, evs3) => (r3, evs ++ evs2 ++ evs3)

/-- Factory::Create: reject a mismatched source type with E_INVALIDARG,
then run the reuse stage and, when it throws or falls through, the
recreate stage and finally the in-memory stage. -/
def create (env : Env) (detailsType : String) :
    Except HResult SourceResult × List CEvent :=
  if detailsType = factoryType then
    match stage1 env with
    | (Except.ok (some s), evs) => (Except.ok s, evs)
    | (Except.ok none, evs) => createFallback env evs
    | (Except.error _, evs) => createFallback env evs
  else (Except.error HResult.E_INVALIDARG, [])

/-- Factory::Add: throws E_NOTIMPL and touches nothing. -/
def factoryAdd (cache : SQLiteIndex) (_details : String) :
    Except HResult Unit × SQLiteIndex :=
  (Except.error HResult.E_NOTIMPL, cache)

/-- Factory::Update: throws E_NOTIMPL and touches nothing. -/
def factoryUpdate (cache : SQLiteIndex) (_details : String) :
    Except HResult Unit × SQLiteIndex :=
  (Except.error HResult.E_NOTIMPL, cache)

/-- Factory::Remove: throws E_NOTIMPL and touches nothing. -/
def factoryRemove (cache : SQLiteIndex) (_details : String) :
    Except HResult Unit × SQLiteIndex :=
  (Except.error HResult.E_NOTIMPL, cache)

/-- The record the MSIX populate loop inserts for a non-system package when
the manifest's carried-over name field holds `carried`. -/
def msixRecordOf (p : MsixPackage) (carried : String) : IndexRecord :=
  { identity := p.familyName,
    name := (if (match p.displayName with
                 | some s => s
                 | none => carried) = "" then p.rawName
             else (match p.displayName with
                   | some s => s
                   | none => carried)),
    version := msixVersionString p.version,
    scope := none, installedType := "msix" }

/-- The records the MSIX populate loop inserts, in order, threading the
carried-over manifest name through the iterations. -/
def msixRecords : List MsixPackage → String → List IndexRecord
  | [], _ => []
  | p :: ps, carried =>
    if p.isSystem then msixRecords ps carried
    else msixRecordOf p carried :: msixRecords ps (msixRecordOf p carried).name

/-- The value the shared manifest's name field holds after the MSIX
populate loop has processed the given packages. -/
def msixCarriedName : List MsixPackage → String → String
  | [], carried => carried
  | p :: ps, carried =>
    if p.isSystem then msixCarriedName ps carried
    else msixCarriedName ps (msixRecordOf p carried).name

/-- The record as first inserted by AddManifest, before the InstalledType
metadata is set. -/
def msixRawRecordOf (p : MsixPackage) (carried : String) : IndexRecord :=
  { msixRecordOf p carried with installedType := "" }

/-- The manifest object as the MSIX populate loop leaves it after one
non-system iteration. -/
def msixManifestAfter (p : MsixPackage) (carried : String) : Manifest :=
  { id := p.familyName, name := (msixRecordOf p carried).name,
    version := msixVersionString p.version }

/-- A non-system package whose localized display name resolves. -/
def pkgFirst : MsixPackage :=
  { isSystem := false, familyName := "Fam.One", rawName := "RawOne",
    displayName := some "First App",
    version := { major := 1, minor := 0, build := 0, revision := 0 } }

/-- A non-system package whose localized display-name retrieval throws. -/
def pkgSecond : MsixPackage :=
  { isSystem := false, familyName := "Fam.Two", rawName := "RawTwo",
    displayName := none,
    version := { major := 2, minor := 0, build := 0, revision := 0 } }

/-- Whether an Except result is an error (a thrown, CATCH_LOG-ed exception). -/
def isErr {ε α : Type} (r : Except ε α) : Bool :=
  match r with
  | Except.error _ => true
  | Except.ok _ => false

/-- A concrete environment: empty live state, every external operation
succeeds, and the zero-timeout contents-lock try-acquire wins. -/
def envW : Env :=
  { live := { arpMachine := [], arpUser := [], msix := [] },
    cacheIndex := SQLiteIndex.createNew 1,
    s1LockOk := true, s1OpenOk := true, contentsAcquired := true,
    s1UpdateOk := true, s1WaitOk := true, s2LockOk := true, s2RemoveOk := true,
    s2MkdirOk := true, s2CreateOk := true, s2PopulateOk := true,
    s2RelockOk := true, s2ReopenOk := true, s3CreateOk := true,
    s3PopulateOk := true }

/-- envW with the index open of the reuse stage throwing. -/
def envW5 : Env :=
  { envW with s1OpenOk := false }

/-- envW with the reuse stage and the recreate stage both throwing. -/
def envW4 : Env :=
  { envW with s1OpenOk := false, s2LockOk := false }

/-! ### Basic lemmas about the index operations -/

lemma search_addManifest (idx : SQLiteIndex) (r : IndexRecord) :
    (idx.addManifest r).snd.search = idx.search ++ [idx.nextId] := by
  simp [SQLiteIndex.addManifest, SQLiteIndex.search]

lemma search_updateManifestById (idx : SQLiteIndex) (id : Nat) (r : IndexRecord) :
    (idx.updateManifestById id r).search = idx.search := by
  unfold SQLiteIndex.updateManifestById SQLiteIndex.search
  simp only [List.map_map]
  apply List.map_congr_left
  intro q _
  by_cases hq : q.fst = id <;> simp [hq]

lemma search_setMetadataByManifestId (idx : SQLiteIndex) (id : Nat) (v : String) :
    (idx.setMetadataByManifestId id v).search = idx.search := by
  unfold SQLiteIndex.setMetadataByManifestId SQLiteIndex.search
  simp only [List.map_map]
  apply List.map_congr_left
  intro q _
  by_cases hq : q.fst = id <;> simp [hq]

lemma mem_search_removeManifestsById (idx : SQLiteIndex) (id a : Nat) :
    a ∈ (idx.removeManifestsById id).search ↔ a ∈ idx.search ∧ a ≠ id := by
  simp only [SQLiteIndex.removeManifestsById, SQLiteIndex.search, List.mem_map,
    List.mem_filter, bne_iff_ne, ne_eq]
  constructor
  · rintro ⟨q, ⟨hq, hne⟩, rfl⟩
    exact ⟨⟨q, hq, rfl⟩, hne⟩
  · rintro ⟨⟨q, hq, rfl⟩, hne⟩
    exact ⟨q, ⟨hq, hne⟩, rfl⟩

lemma mem_search_removeFold (s : List Nat) :
    ∀ (idx : SQLiteIndex) (a : Nat),
      a ∈ (s.foldl SQLiteIndex.removeManifestsById idx).search ↔
        a ∈ idx.search ∧ a ∉ s := by
  induction s with
  | nil => intro idx a; simp
  | cons x xs ih =>
    intro idx a
    rw [List.foldl_cons, ih, mem_search_removeManifestsById]
    constructor
    · rintro ⟨⟨ha, hne⟩, hxs⟩
      exact ⟨ha, by simp [List.mem_cons, hne, hxs]⟩
    · rintro ⟨ha, hmem⟩
      simp only [List.mem_cons, not_or] at hmem
      exact ⟨⟨ha, hmem.1⟩, hmem.2⟩

/-! ### The scan phase never removes a record and only shrinks the set -/

lemma mem_search_updateARPStep (sc : ScopeEnum) (st : SQLiteIndex × List Nat)
    (e : ARPEntry) (a : Nat) (h : a ∈ st.fst.search) :
    a ∈ (updateARPStep sc st e).fst.search := by
  unfold updateARPStep
  cases hf : findByIdentity st.fst e.identity (some sc) <;>
    simp [search_addManifest, search_updateManifestById, h]

lemma mem_search_updateMSIXStep (st : SQLiteIndex × List Nat)
    (p : MsixPackage) (a : Nat) (h : a ∈ st.fst.search) :
    a ∈ (updateMSIXStep st p).fst.search := by
  unfold updateMSIXStep
  cases hsys : p.isSystem with
  | true => simpa [hsys] using h
  | false =>
    cases hf : findByIdentity st.fst p.familyName none <;>
      simp [hsys, search_addManifest, search_updateManifestById, h]

lemma mem_search_foldARP (es : List ARPEntry) (sc : ScopeEnum) :
    ∀ (st : SQLiteIndex × List Nat) (a : Nat), a ∈ st.fst.search →
      a ∈ (es.foldl (updateARPStep sc) st).fst.search := by
  induction es with
  | nil => intro st a h; simpa using h
  | cons e es ih =>
    intro st a h
    exact ih _ a (mem_search_updateARPStep sc st e a h)

lemma mem_search_foldMSIX (ps : List MsixPackage) :
    ∀ (st : SQLiteIndex × List Nat) (a : Nat), a ∈ st.fst.search →
      a ∈ (ps.foldl updateMSIXStep st).fst.search := by
  induction ps with
  | nil => intro st a h; simpa using h
  | cons p ps ih =>
    intro st a h
    exact ih _ a (mem_search_updateMSIXStep st p a h)

lemma ids_updateARPStep_subset (sc : ScopeEnum) (st : SQLiteIndex × List Nat)
    (e : ARPEntry) (a : Nat) :
    a ∈ (updateARPStep sc st e).snd → a ∈ st.snd := by
  unfold updateARPStep
  cases hf : findByIdentity st.fst e.identity (some sc) with
  | none => exact fun h => h
  | some id => exact fun h => List.mem_of_mem_erase h

lemma ids_updateMSIXStep_subset (st : SQLiteIndex × List Nat)
    (p : MsixPackage) (a : Nat) :
    a ∈ (updateMSIXStep st p).snd → a ∈ st.snd := by
  unfold updateMSIXStep
  cases hsys : p.isSystem with
  | true => simp
  | false =>
    cases hf : findByIdentity st.fst p.familyName none with
    | none => simp
    | some id =>
      simp only [Bool.false_eq_true, if_false]
      exact fun h => List.mem_of_mem_erase h

lemma ids_foldARP_subset (es : List ARPEntry) (sc : ScopeEnum) :
    ∀ (st : SQLiteIndex × List Nat) (a : Nat),
      a ∈ (es.foldl (updateARPStep sc) st).snd → a ∈ st.snd := by
  induction es with
  | nil => intro st a h; simpa using h
  | cons e es ih =>
    intro st a h
    exact ids_updateARPStep_subset sc st e a (ih _ a h)

lemma ids_foldMSIX_subset (ps : List MsixPackage) :
    ∀ (st : SQLiteIndex × List Nat) (a : Nat),
      a ∈ (ps.foldl updateMSIXStep st).snd → a ∈ st.snd := by
  induction ps with
  | nil => intro st a h; simpa using h
  | cons p ps ih =>
    intro st a h
    exact ids_updateMSIXStep_subset st p a (ih _ a h)

/-- No record present when the update pass starts is removed by the scan
phase: the three scans only update or insert. -/
lemma scanPhase_search_mono (live : LiveState) (idx : SQLiteIndex) (a : Nat)
    (h : a ∈ idx.search) : a ∈ (updateScanPhase live idx).fst.search := by
  simp only [updateScanPhase, UpdateIndexFromARP, UpdateIndexFromMSIX]
  exact mem_search_foldMSIX _ _ a
    (mem_search_foldARP _ _ _ a (mem_search_foldARP _ _ _ a h))

/-- Every id remaining in the captured set after the scan phase was present
when the update pass started. -/
lemma scanPhase_ids_subset (live : LiveState) (idx : SQLiteIndex) (a : Nat)
    (h : a ∈ (updateScanPhase live idx).snd) : a ∈ idx.search := by
  simp only [updateScanPhase, UpdateIndexFromARP, UpdateIndexFromMSIX] at h
  exact ids_foldARP_subset _ _ _ a
    (ids_foldARP_subset _ _ _ a (ids_foldMSIX_subset _ _ a h))

/-! ### Contents produced by the population passes -/

lemma WF_addManifest (idx : SQLiteIndex) (r : IndexRecord) (h : WF idx) :
    WF (idx.addManifest r).snd := by
  intro a ha
  rw [search_addManifest] at ha
  have hn : (idx.addManifest r).snd.nextId = idx.nextId + 1 := rfl
  rw [hn]
  rcases List.mem_append.mp ha with h1 | h1
  · exact Nat.lt_succ_of_lt (h a h1)
  · simp only [List.mem_singleton] at h1
    omega

lemma WF_setMetadataByManifestId (idx : SQLiteIndex) (id : Nat) (v : String)
    (h : WF idx) : WF (idx.setMetadataByManifestId id v) := by
  intro a ha
  rw [search_setMetadataByManifestId] at ha
  exact h a ha

lemma rows_addThenSetMetadata (idx : SQLiteIndex) (r : IndexRecord) (v : String)
    (hwf : WF idx) :
    ((idx.addManifest r).snd.setMetadataByManifestId (idx.addManifest r).fst v).rows.map
        Prod.snd
      = idx.rows.map Prod.snd ++ [{ r with installedType := v }] := by
  show ((idx.rows ++ [(idx.nextId, r)]).map (fun q =>
      if q.fst = idx.nextId then (q.fst, { q.snd with installedType := v }) else q)).map
        Prod.snd
    = idx.rows.map Prod.snd ++ [{ r with installedType := v }]
  rw [List.map_append, List.map_append]
  congr 1
  · rw [List.map_map]
    apply List.map_congr_left
    intro q hq
    have hlt : q.fst < idx.nextId := hwf q.fst (List.mem_map.mpr ⟨q, hq, rfl⟩)
    have hne : q.fst ≠ idx.nextId := Nat.ne_of_lt hlt
    simp [hne]
  · simp

/-- One non-system iteration of the MSIX populate loop: it appends exactly
the record determined by the package and the carried-over name, leaves the
manifest's name field holding that record's name, and preserves
well-formedness. -/
lemma populateMSIXStep_spec (idx : SQLiteIndex) (m : Manifest) (p : MsixPackage)
    (hwf : WF idx) (hs : p.isSystem = false) :
    (populateMSIXStep (idx, m) p).fst.rows.map Prod.snd
        = idx.rows.map Prod.snd ++ [msixRecordOf p m.name] ∧
    WF (populateMSIXStep (idx, m) p).fst ∧
    (populateMSIXStep (idx, m) p).snd.name = (msixRecordOf p m.name).name := by
  have hstep : populateMSIXStep (idx, m) p =
      ((idx.addManifest (msixRawRecordOf p m.name)).snd.setMetadataByManifestId
         (idx.addManifest (msixRawRecordOf p m.name)).fst "msix",
       msixManifestAfter p m.name) := by
    cases hd : p.displayName with
    | none =>
      by_cases he : m.name = "" <;>
        simp [populateMSIXStep, msixRecordOf, msixRawRecordOf, msixManifestAfter,
          hs, hd, he]
    | some s =>
      by_cases he : s = "" <;>
        simp [populateMSIXStep, msixRecordOf, msixRawRecordOf, msixManifestAfter,
          hs, hd, he]
  rw [hstep]
  refine ⟨?_, ?_, rfl⟩
  · rw [rows_addThenSetMetadata _ _ _ hwf]
    simp [msixRawRecordOf, msixRecordOf]
  · exact WF_setMetadataByManifestId _ _ _ (WF_addManifest idx _ hwf)

/-- The whole MSIX populate loop: contents are the old contents followed by
the records of the non-system packages, the carried name threads through,
and well-formedness is preserved. -/
lemma populateMSIX_fold (ps : List MsixPackage) :
    ∀ (idx : SQLiteIndex) (m : Manifest), WF idx →
      (ps.foldl populateMSIXStep (idx, m)).fst.rows.map Prod.snd
          = idx.rows.map Prod.snd ++ msixRecords ps m.name ∧
      WF (ps.foldl populateMSIXStep (idx, m)).fst ∧
      (ps.foldl populateMSIXStep (idx, m)).snd.name = msixCarriedName ps m.name := by
  induction ps with
  | nil => intro idx m hwf; simp [msixRecords, msixCarriedName, hwf]
  | cons p ps ih =>
    intro idx m hwf
    by_cases hs : p.isSystem
    · have hstep : populateMSIXStep (idx, m) p = (idx, m) := by
        unfold populateMSIXStep
        simp [hs]
      rw [List.foldl_cons, hstep]
      have hrec := ih idx m hwf
      simp only [msixRecords, msixCarriedName, hs, if_true]
      exact hrec
    · have hs' : p.isSystem = false := by simpa using hs
      obtain ⟨h1, h2, h3⟩ := populateMSIXStep_spec idx m p hwf hs'
      rw [List.foldl_cons]
      obtain ⟨g1, g2, g3⟩ :=
        ih (populateMSIXStep (idx, m) p).fst (populateMSIXStep (idx, m) p).snd h2
      have hpair : ((populateMSIXStep (idx, m) p).fst,
          (populateMSIXStep (idx, m) p).snd) = populateMSIXStep (idx, m) p := rfl
      rw [hpair] at g1 g2 g3
      refine ⟨?_, g2, ?_⟩
      · rw [g1, h1, h3]
        simp [msixRecords, hs', List.append_assoc]
      · rw [g3, h3]
        simp [msixCarriedName, hs']

/-- The ARP populate pass appends exactly one legacy record per entry and
preserves well-formedness. -/
lemma populateARP_rows (es : List ARPEntry) (sc : ScopeEnum) :
    ∀ idx : SQLiteIndex,
      ((PopulateIndexFromARP es sc idx).rows.map Prod.snd
          = idx.rows.map Prod.snd ++ es.map (fun e => arpRecordOf e sc)) ∧
      (WF idx → WF (PopulateIndexFromARP es sc idx)) := by
  induction es with
  | nil => intro idx; simp [PopulateIndexFromARP]
  | cons e es ih =>
    intro idx
    have hcons : PopulateIndexFromARP (e :: es) sc idx
        = PopulateIndexFromARP es sc (idx.addManifest (arpRecordOf e sc)).snd := rfl
    rw [hcons]
    constructor
    · rw [(ih (idx.addManifest (arpRecordOf e sc)).snd).1]
      simp [SQLiteIndex.addManifest]
    · intro hwf
      exact (ih (idx.addManifest (arpRecordOf e sc)).snd).2 (WF_addManifest idx _ hwf)

lemma populateMSIXStep_eta (st : SQLiteIndex × Manifest) (p : MsixPackage) :
    populateMSIXStep st p = populateMSIXStep (st.fst, st.snd) p := rfl

lemma WF_createNew (n : Nat) : WF (SQLiteIndex.createNew n) := by
  intro a ha
  simp [SQLiteIndex.search, SQLiteIndex.createNew] at ha

/-- C1: for every run of UpdateIndex, with S the id set captured by the
unfiltered search at the start and R the subset of S re-encountered by the
two registry scans and the MSIX scan (that is, S minus what is left in the
captured set after the scan phase), the id set of the resulting index is
exactly R together with the newly inserted ids: every id of S that the
scans did not re-encounter is gone, every re-encountered id is kept, and
the only other ids present are ones that were not in S at all. -/
theorem claim_C1 (live : LiveState) (idx : SQLiteIndex) (a : Nat) :
    a ∈ (UpdateIndex live idx).search ↔
      ((a ∈ idx.search ∧ a ∉ (updateScanPhase live idx).snd) ∨
       (a ∈ (updateScanPhase live idx).fst.search ∧ a ∉ idx.search)) := by
  have hfinal : a ∈ (UpdateIndex live idx).search ↔
      a ∈ (updateScanPhase live idx).fst.search ∧
        a ∉ (updateScanPhase live idx).snd := by
    unfold UpdateIndex UpdateIndexTrace
    exact mem_search_removeFold _ _ _
  rw [hfinal]
  constructor
  · rintro ⟨h1, h2⟩
    by_cases hS : a ∈ idx.search
    · exact Or.inl ⟨hS, h2⟩
    · exact Or.inr ⟨h1, hS⟩
  · rintro (⟨hS, h2⟩ | ⟨h1, hS⟩)
    · exact ⟨scanPhase_search_mono live idx a hS, h2⟩
    · exact ⟨h1, fun hmem => hS (scanPhase_ids_subset live idx a hmem)⟩

/-- C2: during UpdateIndex no record is removed before all three scans
(registry Machine, registry User, MSIX) have completed: every id present at
the start is still present in the index the scan phase produces, and the
event trace is the three scans in order followed only by removals of the
ids still left in the captured set. -/
theorem claim_C2 (live : LiveState) (idx : SQLiteIndex) :
    (∀ a ∈ idx.search, a ∈ (updateScanPhase live idx).fst.search) ∧
    (UpdateIndexTrace live idx).snd =
      [UEvent.scanARP ScopeEnum.machine, UEvent.scanARP ScopeEnum.user, UEvent.scanMSIX]
        ++ (updateScanPhase live idx).snd.map UEvent.removeId := by
  exact ⟨fun a ha => scanPhase_search_mono live idx a ha, rfl⟩

/-- C6, evaluated at the failing input: enumerating a package with a good
display name and then one whose display-name retrieval fails, the pass is
not aborted (both records are inserted), but the second record carries the
FIRST package's display name "First App" instead of its own raw name
"RawTwo" - the shared manifest object still holds the earlier value, so the
raw-name fallback never fires.  This contradicts the code's own comment
("we will simply fall back to using the package name below"). -/
theorem claim_C6 :
    (PopulateIndexFromMSIX [pkgFirst, pkgSecond] (SQLiteIndex.createNew 1)).rows.map
        Prod.snd =
      [{ identity := "Fam.One", name := "First App", version := "1.0.0.0",
         scope := none, installedType := "msix" },
       { identity := "Fam.Two", name := "First App", version := "2.0.0.0",
         scope := none, installedType := "msix" }] ∧
    pkgSecond.rawName = "RawTwo" :=
  ⟨rfl, rfl⟩

/-- C7: for one fixed live system state, running the full population pass
against two independently created fresh (empty) indexes yields identical
contents under entry comparison - identities, display names, versions,
scopes and installer-type tags all agree - even though the starting rowid
counters (and hence the rowids) may differ. -/
theorem claim_C7 (live : LiveState) (i1 i2 : SQLiteIndex)
    (h1 : i1.rows = []) (h2 : i2.rows = []) :
    (PopulateIndex live i1).rows.map Prod.snd
      = (PopulateIndex live i2).rows.map Prod.snd := by
  have key : ∀ j : SQLiteIndex, j.rows = [] →
      (PopulateIndex live j).rows.map Prod.snd =
        (live.arpMachine.map (fun e => arpRecordOf e ScopeEnum.machine))
          ++ (live.arpUser.map (fun e => arpRecordOf e ScopeEnum.user))
          ++ msixRecords live.msix "" := by
    intro j hj
    have hwf : WF j := by
      intro a ha
      simp [SQLiteIndex.search, hj] at ha
    have hwfu : WF (PopulateIndexFromARP live.arpUser ScopeEnum.user
        (PopulateIndexFromARP live.arpMachine ScopeEnum.machine j)) :=
      (populateARP_rows _ _ _).2 ((populateARP_rows _ _ _).2 hwf)
    obtain ⟨g1, _, _⟩ := populateMSIX_fold live.msix
      (PopulateIndexFromARP live.arpUser ScopeEnum.user
        (PopulateIndexFromARP live.arpMachine ScopeEnum.machine j))
      { id := "", name := "", version := "" } hwfu
    unfold PopulateIndex PopulateIndexFromMSIX
    rw [g1, (populateARP_rows _ _ _).1, (populateARP_rows _ _ _).1]
    simp [hj]
  rw [key i1 h1, key i2 h2]

/-- Witness for C7 at a concrete live state and two fresh indexes whose
rowid counters differ. -/
theorem claim_C7_witness :
    (PopulateIndex
        { arpMachine := [{ identity := "App.A", name := "App A", version := "1.0" }],
          arpUser := [{ identity := "App.B", name := "App B", version := "2.0" }],
          msix := [pkgFirst] }
        (SQLiteIndex.createNew 1)).rows.map Prod.snd
      = (PopulateIndex
          { arpMachine := [{ identity := "App.A", name := "App A", version := "1.0" }],
            arpUser := [{ identity := "App.B", name := "App B", version := "2.0" }],
            msix := [pkgFirst] }
          (SQLiteIndex.createNew 5)).rows.map Prod.snd :=
  claim_C7 _ (SQLiteIndex.createNew 1) (SQLiteIndex.createNew 5) rfl rfl

/-- C10: the MSIX populate pass reuses one Manifest object across all
iterations, so when the last package's display-name retrieval throws, the
record it inserts carries the carried-over name the earlier iterations left
in the shared object whenever that name is non-empty, and falls back to the
package's own raw name only when the carried-over name is empty. -/
theorem claim_C10 (ps : List MsixPackage) (p : MsixPackage) (idx : SQLiteIndex)
    (hwf : WF idx) (hs : p.isSystem = false) (hd : p.displayName = none) :
    (PopulateIndexFromMSIX (ps ++ [p]) idx).rows.map Prod.snd =
      (PopulateIndexFromMSIX ps idx).rows.map Prod.snd ++
        [{ identity := p.familyName,
           name := (if msixCarriedName ps "" = "" then p.rawName
                    else msixCarriedName ps ""),
           version := msixVersionString p.version,
           scope := none, installedType := "msix" }] := by
  unfold PopulateIndexFromMSIX
  rw [List.foldl_append]
  simp only [List.foldl_cons, List.foldl_nil]
  rw [populateMSIXStep_eta]
  obtain ⟨g1, g2, g3⟩ :=
    populateMSIX_fold ps idx { id := "", name := "", version := "" } hwf
  obtain ⟨h1, h2, h3⟩ := populateMSIXStep_spec
    (ps.foldl populateMSIXStep (idx, { id := "", name := "", version := "" })).fst
    (ps.foldl populateMSIXStep (idx, { id := "", name := "", version := "" })).snd
    p g2 hs
  rw [h1]
  have g3' : (ps.foldl populateMSIXStep
      (idx, ({ id := "", name := "", version := "" } : Manifest))).snd.name
      = msixCarriedName ps "" := g3
  rw [g3']
  simp [msixRecordOf, hd]

/-- Witness for C10: after the first package left "First App" in the shared
manifest, the second package's record carries "First App". -/
theorem claim_C10_witness :
    (PopulateIndexFromMSIX ([pkgFirst] ++ [pkgSecond]) (SQLiteIndex.createNew 1)).rows.map
        Prod.snd =
      (PopulateIndexFromMSIX [pkgFirst] (SQLiteIndex.createNew 1)).rows.map Prod.snd ++
        [{ identity := pkgSecond.familyName,
           name := (if msixCarriedName [pkgFirst] "" = "" then pkgSecond.rawName
                    else msixCarriedName [pkgFirst] ""),
           version := msixVersionString pkgSecond.version,
           scope := none, installedType := "msix" }] :=
  claim_C10 [pkgFirst] pkgSecond (SQLiteIndex.createNew 1) (WF_createNew 1) rfl rfl

/-- C3: in Create, when the existing cache opens and the freshness check
accepts it, the process try-acquires the contents lock exclusively with a
zero timeout; on success it runs UpdateIndex and then releases the lock; on
failure it performs no update work and only blocks waiting on the contents
lock; in either branch it returns a persistent source that still carries
the shared structural (file) lock. -/
theorem claim_C3 (env : Env) (hL : env.s1LockOk = true) (hO : env.s1OpenOk = true) :
    (env.contentsAcquired = true → env.s1UpdateOk = true →
      create env factoryType =
        (Except.ok { name := c_sourceName,
                     index := UpdateIndex env.live env.cacheIndex,
                     hasFileLock := true, isInstalled := true },
         [CEvent.lockSharedFile, CEvent.openIndexReadWrite, CEvent.checkRecreate false,
          CEvent.tryAcquireContents true, CEvent.runUpdateIndex,
          CEvent.releaseContents])) ∧
    (env.contentsAcquired = false → env.s1WaitOk = true →
      create env factoryType =
        (Except.ok { name := c_sourceName, index := env.cacheIndex,
                     hasFileLock := true, isInstalled := true },
         [CEvent.lockSharedFile, CEvent.openIndexReadWrite, CEvent.checkRecreate false,
          CEvent.tryAcquireContents false, CEvent.waitContentsShared])) := by
  constructor
  · intro hC hU
    simp [create, stage1, ShouldRecreateCache, hL, hO, hC, hU]
  · intro hC hW
    simp [create, stage1, ShouldRecreateCache, hL, hO, hC, hW]

/-- Witness for C3 in the elected-updater branch. -/
theorem claim_C3_witness :
    create envW factoryType =
      (Except.ok { name := c_sourceName,
                   index := UpdateIndex envW.live envW.cacheIndex,
                   hasFileLock := true, isInstalled := true },
       [CEvent.lockSharedFile, CEvent.openIndexReadWrite, CEvent.checkRecreate false,
        CEvent.tryAcquireContents true, CEvent.runUpdateIndex,
        CEvent.releaseContents]) :=
  (claim_C3 envW rfl rfl).1 rfl rfl

/-- C4: when the reuse stage and the recreate stage both fail, Create still
returns a usable source backed by an in-memory index filled by a full
population pass and carrying no lock, no error from those two stages
reaches the caller, and an error escapes only when the final in-memory
stage itself fails. -/
theorem claim_C4 (env : Env)
    (h1 : isErr (stage1 env).fst = true)
    (h2 : isErr (stage2 env).fst = true) :
    (env.s3CreateOk = true → env.s3PopulateOk = true →
      (create env factoryType).fst =
        Except.ok { name := c_sourceName,
                    index := PopulateIndex env.live (SQLiteIndex.createNew 1),
                    hasFileLock := false, isInstalled := true }) ∧
    (isErr (create env factoryType).fst = true →
      env.s3CreateOk = false ∨ env.s3PopulateOk = false) := by
  rcases hs1 : stage1 env with ⟨r1, evs1⟩
  rcases hs2 : stage2 env with ⟨r2, evs2⟩
  rw [hs1] at h1
  rw [hs2] at h2
  cases r1 with
  | ok v => simp [isErr] at h1
  | error e1 =>
    cases r2 with
    | ok v2 => simp [isErr] at h2
    | error e2 =>
      rcases hs3 : stage3 env with ⟨r3, evs3⟩
      have hcreate : create env factoryType = (r3, evs1 ++ evs2 ++ evs3) := by
        simp [create, createFallback, hs1, hs2, hs3]
      constructor
      · intro hc hp
        simp [stage3, hc, hp] at hs3
        rw [hcreate]
        simp [← hs3.1]
      · intro herr
        cases hc : env.s3CreateOk with
        | false => exact Or.inl rfl
        | true =>
          cases hp : env.s3PopulateOk with
          | false => exact Or.inr rfl
          | true =>
            exfalso
            simp [stage3, hc, hp] at hs3
            rw [hcreate] at herr
            simp [isErr, ← hs3.1] at herr

/-- Witness for C4: open of the existing cache fails, the exclusive file
lock of the recreate stage fails, yet Create returns the populated
in-memory source. -/
theorem claim_C4_witness :
    (create envW4 factoryType).fst =
      Except.ok { name := c_sourceName,
                  index := PopulateIndex envW4.live (SQLiteIndex.createNew 1),
                  hasFileLock := false, isInstalled := true } :=
  (claim_C4 envW4 rfl rfl).1 rfl rfl

/-- C5: when Create takes the recreate path and that stage succeeds, it
performs exactly, in order: exclusive structural lock, recursive delete of
the cache directory, directory recreation, creation of a brand-new index
file, a full population pass, release of the exclusive lock, then a shared
re-acquire of the structural lock and a read-only reopen; the returned
source holds the populated index and the shared file lock. -/
theorem claim_C5 (env : Env) (h1 : isErr (stage1 env).fst = true)
    (hA : env.s2LockOk = true) (hB : env.s2RemoveOk = true)
    (hC : env.s2MkdirOk = true) (hD : env.s2CreateOk = true)
    (hE : env.s2PopulateOk = true) (hF : env.s2RelockOk = true)
    (hG : env.s2ReopenOk = true) :
    create env factoryType =
      (Except.ok { name := c_sourceName,
                   index := PopulateIndex env.live (SQLiteIndex.createNew 1),
                   hasFileLock := true, isInstalled := true },
       (stage1 env).snd ++
        [CEvent.lockExclusiveFile, CEvent.removeAllCacheDir, CEvent.createDirectories,
         CEvent.createNewIndex, CEvent.runPopulateIndex, CEvent.releaseExclusiveFile,
         CEvent.lockSharedFile, CEvent.openIndexRead]) := by
  rcases hs1 : stage1 env with ⟨r1, evs1⟩
  rw [hs1] at h1
  cases r1 with
  | ok v => simp [isErr] at h1
  | error e1 =>
    simp [create, createFallback, stage2, hs1, hA, hB, hC, hD, hE, hF, hG]

/-- Witness for C5: the open of the existing cache throws, all recreate
operations succeed. -/
theorem claim_C5_witness :
    create envW5 factoryType =
      (Except.ok { name := c_sourceName,
                   index := PopulateIndex envW5.live (SQLiteIndex.createNew 1),
                   hasFileLock := true, isInstalled := true },
       (stage1 envW5).snd ++
        [CEvent.lockExclusiveFile, CEvent.removeAllCacheDir, CEvent.createDirectories,
         CEvent.createNewIndex, CEvent.runPopulateIndex, CEvent.releaseExclusiveFile,
         CEvent.lockSharedFile, CEvent.openIndexRead]) :=
  claim_C5 envW5 rfl rfl rfl rfl rfl rfl rfl rfl

/-- C8: Add, Update and Remove report the distinct not-supported condition
E_NOTIMPL - not the generic failure E_FAIL - and leave the state unchanged,
for every state and input. -/
theorem claim_C8 (cache : SQLiteIndex) (d : String) :
    factoryAdd cache d = (Except.error HResult.E_NOTIMPL, cache) ∧
    factoryUpdate cache d = (Except.error HResult.E_NOTIMPL, cache) ∧
    factoryRemove cache d = (Except.error HResult.E_NOTIMPL, cache) ∧
    HResult.E_NOTIMPL ≠ HResult.E_FAIL :=
  ⟨rfl, rfl, rfl, by decide⟩

/-- C9: ShouldRecreateCache returns false for every index, so the reuse
stage never falls through by judging an opened cache unusable; when none of
the shared-lock acquire, the index open and the update/wait step throws,
the reuse stage returns a source, so the recreate path is reached only
through an exception in one of those operations. -/
theorem claim_C9 :
    (∀ idx : SQLiteIndex, ShouldRecreateCache idx = false) ∧
    (∀ env : Env, (stage1 env).fst ≠ Except.ok none) ∧
    (∀ env : Env, env.s1LockOk = true → env.s1OpenOk = true →
      (env.contentsAcquired = true → env.s1UpdateOk = true) →
      (env.contentsAcquired = false → env.s1WaitOk = true) →
      ∃ s, (stage1 env).fst = Except.ok (some s)) := by
  refine ⟨fun idx => rfl, ?_, ?_⟩
  · intro env
    cases h1 : env.s1LockOk <;> cases h2 : env.s1OpenOk <;>
      cases h3 : env.contentsAcquired <;> cases h4 : env.s1UpdateOk <;>
      cases h5 : env.s1WaitOk <;>
      simp [stage1, ShouldRecreateCache, h1, h2, h3, h4, h5]
  · intro env hL hO hU hW
    cases h3 : env.contentsAcquired with
    | true =>
      exact ⟨{ name := c_sourceName, index := UpdateIndex env.live env.cacheIndex,
               hasFileLock := true, isInstalled := true },
             by simp [stage1, ShouldRecreateCache, hL, hO, h3, hU h3]⟩
    | false =>
      exact ⟨{ name := c_sourceName, index := env.cacheIndex,
               hasFileLock := true, isInstalled := true },
             by simp [stage1, ShouldRecreateCache, hL, hO, h3, hW h3]⟩

/-- Witness for C9 at a concrete environment where nothing throws. -/
theorem claim_C9_witness :
    ∃ s, (stage1 envW).fst = Except.ok (some s) :=
  claim_C9.2.2 envW rfl rfl (fun _ => rfl) (fun _ => rfl)

end PredefinedInstalledSource
